import Mathlib

/-!
Verification of the Blood Donation Management API (FastAPI service in
`src/main.py` with pydantic schemas in `src/schemas.py`).

The document store gateway (`database.py`: `create_document`, `get_documents`)
and the document database itself are not under `src/`; they are modelled from
the spec (§4.3): `create` inserts a record under a freshly generated unique
identifier (dates and enumerations serialized to canonical string form), and
`list` returns all documents matching an exact-match filter.  Mongo-style
`find_one` / `update_one` / `delete_one` act on the first matching document.

Machine integers do not overflow in any code path the claims touch (ages,
unit counts), so `Int` models Python's arbitrary-precision `int` exactly.
-/

namespace BloodAPI

/-- An HTTP error as raised by `HTTPException(status_code, detail)`. -/
structure HErr where
  code : Nat
  detail : String
deriving Repr, DecidableEq

instance {ε α : Type} [DecidableEq ε] [DecidableEq α] : DecidableEq (Except ε α) := fun a b =>
  match a, b with
  | .error e1, .error e2 =>
    if h : e1 = e2 then .isTrue (by rw [h]) else .isFalse (fun hc => h (Except.error.inj hc))
  | .error _, .ok _ => .isFalse (fun hc => Except.noConfusion hc)
  | .ok _, .error _ => .isFalse (fun hc => Except.noConfusion hc)
  | .ok a1, .ok a2 =>
    if h : a1 = a2 then .isTrue (by rw [h]) else .isFalse (fun hc => h (Except.ok.inj hc))

/-! ## Object ids

`bson.ObjectId(id_str)` succeeds exactly when `id_str` is a 24-character
hexadecimal string; equality of object ids is on the underlying bytes, so a
parsed id is normalized to lowercase.  Generated ids (`str(ObjectId())`) are
lowercase 24-character hex strings. -/

def isHexChar (c : Char) : Bool :=
  c.isDigit || (0x61 ≤ c.toNat && c.toNat ≤ 0x66) || (0x41 ≤ c.toNat && c.toNat ≤ 0x46)

def validOid (s : String) : Bool :=
  s.length == 24 && s.toList.all isHexChar

def lowerHexChar (c : Char) : Char :=
  if 0x41 ≤ c.toNat && c.toNat ≤ 0x5a then Char.ofNat (c.toNat + 32) else c

/-- Lowercase a hex string: ObjectId equality is on the underlying bytes, so a
parsed id is represented by its canonical lowercase hex form. -/
def strToLower (s : String) : String := String.mk (s.toList.map lowerHexChar)

/-- `oid` from `src/main.py` lines 24–28: parse an id string into the store's
native identifier form, raising 400 "Invalid object id" on failure. -/
def oid (s : String) : Except HErr String :=
  if validOid s then .ok (strToLower s) else .error ⟨400, "Invalid object id"⟩

/-- Hex digit characters, lowercase (for generated ids). -/
def hexChar (n : Nat) : Char :=
  if n < 10 then Char.ofNat (48 + n) else Char.ofNat (87 + n % 16)

/-- Modelled from the spec: `create(collection, record) -> id` returns "a newly
generated unique identifier"; generated ObjectIds print as 24 lowercase hex
characters.  We generate the `n`-th id as `n` in hex, zero-padded to 24. -/
def genId (n : Nat) : String :=
  String.mk (List.ofFn (fun i : Fin 24 => hexChar (n / 16 ^ (23 - i.1) % 16)))

/-! ## Data model (from `src/schemas.py`) -/

/-- The eight `BloodGroup` literals (`src/schemas.py` lines 20–22). -/
def isBloodGroup (s : String) : Bool :=
  ["A+", "A-", "B+", "B-", "AB+", "AB-", "O+", "O-"].contains s

/-- Modelled from the spec: pydantic's `EmailStr` is an external validator
("email fields must match a valid email address syntax", §4.1).  No claim
depends on its exact boundary; we model the syntax check abstractly as the
presence of an `@`. -/
def emailOk (s : String) : Bool :=
  s.toList.contains '@'

/-- `Donor` (`src/schemas.py` lines 24–32).  `eligible` is the client-suppliable
field with default `True`; the handler overwrites it. -/
structure Donor where
  name : String
  email : String
  phone : String
  age : Int
  blood_group : String
  health_ok : Bool
  city : Option String := none
  eligible : Bool := true
deriving Repr, DecidableEq

/-- Pydantic validation of a `Donor` payload: `age` has `ge=18, le=65`,
`blood_group` must be one of the eight literals, `email` is an `EmailStr`. -/
def Donor.valid (d : Donor) : Bool :=
  decide (18 ≤ d.age) && decide (d.age ≤ 65) && isBloodGroup d.blood_group && emailOk d.email

/-- `Hospital` (`src/schemas.py` lines 34–38). -/
structure Hospital where
  name : String
  email : String
  phone : String
  city : Option String := none
deriving Repr, DecidableEq

/-- `Inventory` (`src/schemas.py` lines 40–44) as persisted: the gateway
serializes the `date` field to its canonical ISO 8601 string form (§4.3). -/
structure InventoryDoc where
  hospital_id : String
  blood_group : String
  units : Int
  expiry_date : String
deriving Repr, DecidableEq

/-- `Request` (`src/schemas.py` lines 46–51) as persisted; `updated_at` is set
by the status-update handler (`datetime.utcnow()`, modelled as a Nat clock). -/
structure RequestDoc where
  hospital_id : String
  donor_id : String
  blood_group : String
  units : Int
  status : String := "pending"
  updated_at : Option Nat := none
deriving Repr, DecidableEq

/-- Pydantic validation of a `Request` payload. -/
def RequestDoc.valid (r : RequestDoc) : Bool :=
  isBloodGroup r.blood_group && decide (1 ≤ r.units) &&
    ["pending", "approved", "declined"].contains r.status

/-- `Notification` (`src/schemas.py` lines 53–58) as persisted.  `meta` holds
the `request_id` when present (`src/main.py` line 128). -/
structure NotificationDoc where
  to_email : Option String
  to_phone : Option String := none
  subject : String
  message : String
  meta : Option String := none
deriving Repr, DecidableEq

/-- Modelled from the spec: the document store, one collection per entity,
each a sequence of (generated id, document) pairs in insertion order, plus the
generator counter for fresh ids. -/
structure DB where
  donors : List (String × Donor)
  hospitals : List (String × Hospital)
  inventory : List (String × InventoryDoc)
  requests : List (String × RequestDoc)
  notifications : List (String × NotificationDoc)
  nextId : Nat
deriving Repr, DecidableEq

def DB.empty : DB := ⟨[], [], [], [], [], 0⟩

/-- Modelled from the spec: `find_one(collection, {"_id": i})` returns the
first document whose id equals `i`, if any. -/
def findDoc {α : Type} (l : List (String × α)) (i : String) : Option α :=
  match l with
  | [] => none
  | (j, d) :: rest => if j == i then some d else findDoc rest i

/-- Whether an id string resolves to an existing document of a collection:
it parses as an object id and `find_one` returns a document. -/
def resolvesIn {α : Type} (l : List (String × α)) (s : String) : Bool :=
  match oid s with
  | .ok i => (findDoc l i).isSome
  | .error _ => false

/-! ## Eligibility and donor endpoints (`src/main.py`) -/

/-- `compute_eligibility` (`src/main.py` lines 32–33). -/
def compute_eligibility (donor : Donor) : Bool :=
  decide (donor.age ≥ 18) && decide (donor.age ≤ 65) && donor.health_ok

/-- `register_donor` (`src/main.py` lines 37–48): overwrite `eligible` with the
computed value, persist the donor, record a "Registration Successful"
notification to the donor's email, and return `{id, eligible}`. -/
def register_donor (db : DB) (payload : Donor) : DB × Except HErr (String × Bool) :=
  let elig := compute_eligibility payload
  let data : Donor := { payload with eligible := elig }
  let donor_id := genId db.nextId
  let db1 : DB := { db with donors := db.donors ++ [(donor_id, data)], nextId := db.nextId + 1 }
  let note : NotificationDoc :=
    { to_email := some payload.email
      subject := "Registration Successful"
      message := "Hello " ++ payload.name ++ ", your donor profile has been registered." }
  let db2 : DB := { db1 with notifications := db1.notifications ++ [(genId db1.nextId, note)],
                             nextId := db1.nextId + 1 }
  (db2, .ok (donor_id, elig))

/-- `list_donors` (`src/main.py` lines 50–61).  Python truthiness: an empty
`blood_group` string adds no filter.  Modelled from the spec: `get_documents`
returns all documents matching the exact-match filter. -/
def list_donors (db : DB) (blood_group : Option String) (eligible_only : Bool) :
    List (String × Donor) :=
  db.donors.filter (fun e =>
    (match blood_group with
     | none => true
     | some bg => bg == "" || e.2.blood_group == bg) &&
    (!eligible_only || e.2.eligible))

/-! ## Inventory endpoints -/

/-- Modelled from the spec: the store's `$gte` filter on string values compares
"string-lexicographic" (§4.4); on the ASCII ISO 8601 dates stored here,
byte-wise comparison coincides with character-wise lexicographic order.
`lexLt a b` is true when `a` is strictly before `b`. -/
def lexLt : List Char → List Char → Bool
  | [], [] => false
  | [], _ :: _ => true
  | _ :: _, [] => false
  | a :: as, b :: bs => if a < b then true else if a = b then lexLt as bs else false

def strLt (a b : String) : Bool := lexLt a.toList b.toList

/-- String `a >= b` in the store's lexicographic order. -/
def strGe (a b : String) : Bool := !strLt a b

/-- `get_inventory` (`src/main.py` lines 89–100).  When `include_expired` is
false the query gains `{"expiry_date": {"$gte": today}}`; Mongo compares the
stored ISO date strings lexicographically.  Python truthiness: an empty
`hospital_id` adds no filter.  `today` is `date.today().isoformat()`. -/
def get_inventory (db : DB) (hospital_id : Option String) (include_expired : Bool)
    (today : String) : List (String × InventoryDoc) :=
  db.inventory.filter (fun e =>
    (match hospital_id with
     | none => true
     | some h => h == "" || e.2.hospital_id == h) &&
    (include_expired || strGe e.2.expiry_date today))

/-! ## Hospital and request endpoints -/

/-- `create_hospital` (`src/main.py` lines 65–68). -/
def create_hospital (db : DB) (payload : Hospital) : DB × Except HErr String :=
  let hid := genId db.nextId
  ({ db with hospitals := db.hospitals ++ [(hid, payload)], nextId := db.nextId + 1 }, .ok hid)

/-- `create_request` (`src/main.py` lines 111–130): resolve donor then
hospital (404 on a missing document, 400 from `oid` on an unparseable id),
persist the request, then record a "Blood Request" notification to the
donor. -/
def create_request (db : DB) (payload : RequestDoc) : DB × Except HErr String :=
  match oid payload.donor_id with
  | .error e => (db, .error e)
  | .ok did =>
    match findDoc db.donors did with
    | none => (db, .error ⟨404, "Donor not found"⟩)
    | some donor =>
      match oid payload.hospital_id with
      | .error e => (db, .error e)
      | .ok hid =>
        match findDoc db.hospitals hid with
        | none => (db, .error ⟨404, "Hospital not found"⟩)
        | some hospital =>
          let req_id := genId db.nextId
          let db1 : DB := { db with requests := db.requests ++ [(req_id, payload)],
                                    nextId := db.nextId + 1 }
          let note : NotificationDoc :=
            { to_email := some donor.email
              subject := "Blood Request"
              message := hospital.name ++ " requested " ++ toString payload.units ++
                " unit(s) of " ++ payload.blood_group ++ "."
              meta := some req_id }
          let db2 : DB := { db1 with
            notifications := db1.notifications ++ [(genId db1.nextId, note)],
            nextId := db1.nextId + 1 }
          (db2, .ok req_id)

/-- Mongo `update_one({"_id": i}, {"$set": {"status": st, "updated_at": now}})`
on the request collection: update the first matching document; `none` when no
document matches (`matched_count == 0`). -/
def updateFirst (l : List (String × RequestDoc)) (i : String) (st : String) (now : Nat) :
    Option (List (String × RequestDoc)) :=
  match l with
  | [] => none
  | (j, r) :: rest =>
    if j == i then some ((j, { r with status := st, updated_at := some now }) :: rest)
    else (updateFirst rest i st now).map (fun rest2 => (j, r) :: rest2)

/-- `update_request_status` (`src/main.py` lines 149–164): reject a status
other than "approved"/"declined" with 400; update the request (404 when
unmatched); re-read the request, resolve its hospital (`oid` may raise 400
here, after the write), and record a notification whose `to_email` is the
hospital's email, or `None` when the hospital lookup finds nothing. -/
def update_request_status (db : DB) (request_id : String) (status : String) (now : Nat) :
    DB × Except HErr String :=
  if !(["approved", "declined"].contains status) then
    (db, .error ⟨400, "Status must be \x27approved\x27 or \x27declined\x27"⟩)
  else
    match oid request_id with
    | .error e => (db, .error e)
    | .ok rid =>
      match updateFirst db.requests rid status now with
      | none => (db, .error ⟨404, "Request not found"⟩)
      | some reqs2 =>
        let db1 : DB := { db with requests := reqs2 }
        match findDoc db1.requests rid with
        | none => (db1, .error ⟨500, "Internal Server Error"⟩)
        | some req =>
          match oid req.hospital_id with
          | .error e => (db1, .error e)
          | .ok hid =>
            let hospital := findDoc db1.hospitals hid
            let note : NotificationDoc :=
              { to_email := hospital.map (fun h => h.email)
                subject := "Request " ++ status
                message := "Request " ++ request_id ++ " has been " ++ status ++
                  " by the donor." }
            ({ db1 with notifications := db1.notifications ++ [(genId db1.nextId, note)],
                        nextId := db1.nextId + 1 },
             .ok status)

/-! ## Helper lemmas -/

theorem oid_error_eq {s : String} {e : HErr} (h : oid s = .error e) :
    e = ⟨400, "Invalid object id"⟩ := by
  unfold oid at h
  split at h
  · exact absurd h (by simp)
  · exact (Except.error.inj h).symm

theorem oid_ok_of_valid {s : String} (h : validOid s = true) : oid s = .ok (strToLower s) := by
  simp [oid, h]

theorem updateFirst_found {l : List (String × RequestDoc)} {i : String} {r : RequestDoc}
    (st : String) (now : Nat) (h : findDoc l i = some r) :
    ∃ l2, updateFirst l i st now = some l2 ∧
      findDoc l2 i = some { r with status := st, updated_at := some now } := by
  induction l with
  | nil => simp [findDoc] at h
  | cons a rest ih =>
    obtain ⟨j, q⟩ := a
    by_cases hj : j == i
    · simp only [findDoc, hj, if_true] at h
      obtain rfl := Option.some.inj h
      refine ⟨(j, { q with status := st, updated_at := some now }) :: rest, ?_, ?_⟩
      · simp [updateFirst, hj]
      · simp [findDoc, hj]
    · simp only [findDoc, hj, if_false, Bool.false_eq_true, if_neg] at h
      obtain ⟨l2, hl2, hf⟩ := ih h
      refine ⟨(j, q) :: l2, ?_, ?_⟩
      · simp [updateFirst, hj, hl2]
      · simp [findDoc, hj, hf]

theorem updateFirst_entries {l l2 : List (String × RequestDoc)} {i st : String} {now : Nat}
    (h : updateFirst l i st now = some l2) :
    ∀ e ∈ l2, e ∈ l ∨ e.2.status = st := by
  induction l generalizing l2 with
  | nil => simp [updateFirst] at h
  | cons a rest ih =>
    obtain ⟨j, q⟩ := a
    by_cases hj : j == i
    · simp only [updateFirst, hj, if_true] at h
      obtain rfl := Option.some.inj h
      intro e he
      rcases List.mem_cons.mp he with h1 | h1
      · subst h1; exact Or.inr rfl
      · exact Or.inl (List.mem_cons_of_mem _ h1)
    · simp only [updateFirst, hj, Bool.false_eq_true, if_neg, if_false,
        Option.map_eq_some'] at h
      obtain ⟨l3, hl3, rfl⟩ := h
      intro e he
      rcases List.mem_cons.mp he with h1 | h1
      · exact Or.inl (h1 ▸ List.mem_cons_self _ _)
      · rcases ih hl3 e h1 with h2 | h2
        · exact Or.inl (List.mem_cons_of_mem _ h2)
        · exact Or.inr h2

/-! ## Claims -/

/-- C1: for every donor payload the computed eligibility is
`(age >= 18) AND (age <= 65) AND health_ok`; validation bounds the age to
[18, 65], so for every validated payload the computed — and stored —
eligibility equals `health_ok`. -/
theorem eligibility_rule_and_post_validation (d : Donor) (db : DB) :
    compute_eligibility d = (decide (d.age ≥ 18) && decide (d.age ≤ 65) && d.health_ok)
    ∧ (d.valid = true → compute_eligibility d = d.health_ok)
    ∧ (register_donor db d).1.donors =
        db.donors ++ [(genId db.nextId, { d with eligible := compute_eligibility d })] := by
  refine ⟨rfl, ?_, rfl⟩
  intro hv
  simp only [Donor.valid, Bool.and_eq_true, decide_eq_true_eq] at hv
  simp [compute_eligibility, hv.1.1.1, hv.1.1.2]

theorem eligibility_rule_and_post_validation_witness :
    Donor.valid { name := "A", email := "a@x.com", phone := "1", age := 30,
                  blood_group := "O+", health_ok := true } = true ∧
    compute_eligibility { name := "A", email := "a@x.com", phone := "1", age := 30,
                          blood_group := "O+", health_ok := true } = true :=
  ⟨by decide,
   (eligibility_rule_and_post_validation
      { name := "A", email := "a@x.com", phone := "1", age := 30,
        blood_group := "O+", health_ok := true } DB.empty).2.1 (by decide)⟩

/-- C9: two donor payloads that differ only in the client-supplied `eligible`
field produce identical registration results — identical stored state and
identical response — because the handler overwrites `eligible` with the value
computed from `age` and `health_ok` alone. -/
theorem register_ignores_client_eligible (db : DB) (p : Donor) (b : Bool) :
    register_donor db { p with eligible := b } = register_donor db p := rfl

/-- The donor payload of the registration scenario. -/
def c8payload : Donor :=
  { name := "A", email := "a@x.com", phone := "1", age := 30, blood_group := "O+",
    health_ok := true }

/-- C8: registering the scenario donor (valid payload) returns the generated
id with `eligible = true`, and a notification with subject "Registration
Successful" addressed to the donor's email is then in the store. -/
theorem register_scenario (db : DB) :
    c8payload.valid = true ∧
    (register_donor db c8payload).2 = .ok (genId db.nextId, true) ∧
    ∃ e ∈ (register_donor db c8payload).1.notifications,
      e.2.subject = "Registration Successful" ∧ e.2.to_email = some "a@x.com" := by
  refine ⟨by decide, rfl, ?_⟩
  refine ⟨(genId (db.nextId + 1),
    { to_email := some "a@x.com", subject := "Registration Successful",
      message := "Hello A, your donor profile has been registered." }), ?_, rfl, rfl⟩
  simp [register_donor, c8payload]

/-- C7: with `eligible_only = true` (the default), the donor list never
contains a donor whose `eligible` field is false. -/
theorem donor_list_eligible_filter (db : DB) (bg : Option String)
    (e : String × Donor) (h : e ∈ list_donors db bg true) : e.2.eligible = true := by
  have hm := (List.mem_filter.mp h).2
  simp only [Bool.and_eq_true, Bool.not_true, Bool.false_or] at hm
  exact hm.2

def c7db : DB := { DB.empty with donors := [("d1", c8payload)] }

theorem donor_list_eligible_filter_witness :
    ("d1", c8payload) ∈ list_donors c7db none true ∧ c8payload.eligible = true :=
  ⟨by decide, donor_list_eligible_filter c7db none ("d1", c8payload) (by decide)⟩

/-- C6: with `include_expired = false`, the inventory list never contains a
record whose `expiry_date` is lexicographically strictly before today's ISO
date: every returned record satisfies `expiry_date ≥ today`. -/
theorem inventory_hides_expired (db : DB) (hid : Option String) (today : String)
    (e : String × InventoryDoc) (h : e ∈ get_inventory db hid false today) :
    strGe e.2.expiry_date today = true ∧ strLt e.2.expiry_date today = false := by
  have hm := (List.mem_filter.mp h).2
  simp only [Bool.and_eq_true, Bool.false_or] at hm
  refine ⟨hm.2, ?_⟩
  have h2 := hm.2
  unfold strGe at h2
  cases hlt : strLt e.2.expiry_date today
  · rfl
  · rw [hlt] at h2
    exact absurd h2 (by decide)

def c6db : DB :=
  { DB.empty with inventory :=
      [("i1", { hospital_id := "h1", blood_group := "O+", units := 2,
                expiry_date := "2026-11-01" })] }

/-- C4: a status update with a value other than "approved" or "declined" is
rejected with 400 before any store operation: the entire store, and so the
stored status of every request document, is unchanged. -/
theorem invalid_status_rejected (db : DB) (request_id st : String) (now : Nat)
    (h1 : st ≠ "approved") (h2 : st ≠ "declined") :
    update_request_status db request_id st now =
      (db, .error ⟨400, "Status must be \x27approved\x27 or \x27declined\x27"⟩) := by
  have hc : (["approved", "declined"].contains st) = false := by
    simp [List.contains, h1, h2]
  unfold update_request_status
  rw [hc]
  rfl

theorem invalid_status_rejected_witness :
    ("pending" : String) ≠ "approved" ∧ ("pending" : String) ≠ "declined" ∧
    update_request_status DB.empty "abc" "pending" 0 =
      (DB.empty, .error ⟨400, "Status must be \x27approved\x27 or \x27declined\x27"⟩) :=
  ⟨by decide, by decide,
   invalid_status_rejected DB.empty "abc" "pending" 0 (by decide) (by decide)⟩

/-- C5: for an existing request (reached through this API, so its id and its
stored `hospital_id` are parseable object ids), one status update to
"approved"/"declined" succeeds, appends exactly one notification whose
`to_email` is the owning hospital's email — or `none` when the hospital
lookup finds no document, with no error raised — and a subsequent read of the
request shows the new status. -/
theorem update_status_single_notification (db : DB) (request_id st : String) (now : Nat)
    (req : RequestDoc)
    (hst : st = "approved" ∨ st = "declined")
    (hvo : validOid request_id = true)
    (hreq : findDoc db.requests (strToLower request_id) = some req)
    (hhid : validOid req.hospital_id = true) :
    ∃ db2, update_request_status db request_id st now = (db2, .ok st) ∧
      db2.notifications = db.notifications ++
        [(genId db.nextId,
          { to_email := (findDoc db.hospitals (strToLower req.hospital_id)).map
              (fun h => h.email),
            subject := "Request " ++ st,
            message := "Request " ++ request_id ++ " has been " ++ st ++ " by the donor." })] ∧
      (findDoc db2.requests (strToLower request_id)).map RequestDoc.status = some st := by
  have hguard : (["approved", "declined"].contains st) = true := by
    rcases hst with rfl | rfl <;> decide
  obtain ⟨l2, hl2, hf2⟩ := updateFirst_found st now hreq
  simp only [update_request_status, hguard, Bool.not_true, Bool.false_eq_true, if_false,
    oid_ok_of_valid hvo, oid_ok_of_valid hhid, hl2, hf2]
  exact ⟨_, rfl, rfl, by simp [hf2]⟩

def c5rid : String := "aaaaaaaaaaaaaaaaaaaaaaaa"

def c5req : RequestDoc :=
  { hospital_id := "bbbbbbbbbbbbbbbbbbbbbbbb", donor_id := "cccccccccccccccccccccccc",
    blood_group := "O+", units := 1 }

def c5db : DB := { DB.empty with requests := [(c5rid, c5req)] }

theorem update_status_single_notification_witness :
    validOid c5rid = true ∧ findDoc c5db.requests (strToLower c5rid) = some c5req ∧
    validOid c5req.hospital_id = true ∧
    ∃ db2, update_request_status c5db c5rid "approved" 0 = (db2, .ok "approved") ∧
      db2.notifications = c5db.notifications ++
        [(genId c5db.nextId,
          { to_email := (findDoc c5db.hospitals (strToLower c5req.hospital_id)).map
              (fun h => h.email),
            subject := "Request " ++ "approved",
            message := "Request " ++ c5rid ++ " has been " ++ "approved" ++
              " by the donor." })] ∧
      (findDoc db2.requests (strToLower c5rid)).map RequestDoc.status = some "approved" :=
  ⟨by decide, by decide, by decide,
   update_status_single_notification c5db c5rid "approved" 0 c5req (Or.inl rfl)
     (by decide) (by decide) (by decide)⟩

/-- C10: when the stored `hospital_id` of an existing request does not parse
as an object id, a status update with a valid new status fails with 400
"Invalid object id" only after the status has already been written, and no
notification is inserted: the operation is not atomic on this error path. -/
theorem update_status_nonatomic_bad_hospital_id (db : DB) (request_id st : String)
    (now : Nat) (req : RequestDoc)
    (hst : st = "approved" ∨ st = "declined")
    (hvo : validOid request_id = true)
    (hreq : findDoc db.requests (strToLower request_id) = some req)
    (hbad : validOid req.hospital_id = false) :
    ∃ db2, update_request_status db request_id st now =
        (db2, .error ⟨400, "Invalid object id"⟩) ∧
      (findDoc db2.requests (strToLower request_id)).map RequestDoc.status = some st ∧
      db2.notifications = db.notifications := by
  have hguard : (["approved", "declined"].contains st) = true := by
    rcases hst with rfl | rfl <;> decide
  have hoid2 : oid req.hospital_id = .error ⟨400, "Invalid object id"⟩ := by
    simp [oid, hbad]
  obtain ⟨l2, hl2, hf2⟩ := updateFirst_found st now hreq
  simp only [update_request_status, hguard, Bool.not_true, Bool.false_eq_true, if_false,
    oid_ok_of_valid hvo, hoid2, hl2, hf2]
  exact ⟨_, rfl, by simp [hf2], rfl⟩

def c10req : RequestDoc :=
  { hospital_id := "x", donor_id := "cccccccccccccccccccccccc",
    blood_group := "O+", units := 1 }

def c10db : DB := { DB.empty with requests := [(c5rid, c10req)] }

theorem update_status_nonatomic_bad_hospital_id_witness :
    validOid c5rid = true ∧ findDoc c10db.requests (strToLower c5rid) = some c10req ∧
    validOid c10req.hospital_id = false ∧
    ∃ db2, update_request_status c10db c5rid "approved" 7 =
        (db2, .error ⟨400, "Invalid object id"⟩) ∧
      (findDoc db2.requests (strToLower c5rid)).map RequestDoc.status = some "approved" ∧
      db2.notifications = c10db.notifications :=
  ⟨by decide, by decide, by decide,
   update_status_nonatomic_bad_hospital_id c10db c5rid "approved" 7 c10req (Or.inl rfl)
     (by decide) (by decide) (by decide)⟩

theorem inventory_hides_expired_witness :
    ("i1", { hospital_id := "h1", blood_group := "O+", units := 2,
             expiry_date := "2026-11-01" : InventoryDoc }) ∈
        get_inventory c6db none false "2026-10-12" ∧
    strLt "2026-11-01" "2026-10-12" = false :=
  ⟨by decide,
   (inventory_hides_expired c6db none "2026-10-12"
      ("i1", { hospital_id := "h1", blood_group := "O+", units := 2,
               expiry_date := "2026-11-01" }) (by decide)).2⟩

theorem resolvesIn_false {α : Type} {l : List (String × α)} {s i : String}
    (h1 : oid s = .ok i) (h2 : resolvesIn l s = false) : findDoc l i = none := by
  unfold resolvesIn at h2
  simp only [h1] at h2
  cases hf : findDoc l i
  · rfl
  · rw [hf] at h2
    exact absurd h2 (by simp)

theorem resolvesIn_true {α : Type} {l : List (String × α)} {s i : String} {d : α}
    (h1 : oid s = .ok i) (h2 : findDoc l i = some d) : resolvesIn l s = true := by
  unfold resolvesIn
  simp only [h1, h2, Option.isSome_some]

/-- C3 (amended): creating a request whose `donor_id` or `hospital_id` does not
resolve to an existing document fails and leaves the store unchanged — no
request document and no notification is inserted; the failure is Not-Found
(404) when the offending id parses as an object id, and 400 "Invalid object
id" when it does not. -/
theorem create_request_unresolved_refs_fail (db : DB) (p : RequestDoc)
    (hp : p.valid = true)
    (h : resolvesIn db.donors p.donor_id = false ∨
         resolvesIn db.hospitals p.hospital_id = false) :
    ∃ err : HErr, create_request db p = (db, .error err) ∧
      (err.code = 404 ∨ err = ⟨400, "Invalid object id"⟩) := by
  rcases hoid : oid p.donor_id with e1 | did
  · refine ⟨e1, ?_, Or.inr (oid_error_eq hoid)⟩
    simp only [create_request, hoid]
  · rcases hfd : findDoc db.donors did with _ | donor
    · refine ⟨⟨404, "Donor not found"⟩, ?_, Or.inl rfl⟩
      simp only [create_request, hoid, hfd]
    · have hh : resolvesIn db.hospitals p.hospital_id = false := by
        rcases h with h1 | h1
        · rw [resolvesIn_true hoid hfd] at h1
          exact absurd h1 (by simp)
        · exact h1
      rcases hoid2 : oid p.hospital_id with e2 | hid
      · refine ⟨e2, ?_, Or.inr (oid_error_eq hoid2)⟩
        simp only [create_request, hoid, hfd, hoid2]
      · have hfh : findDoc db.hospitals hid = none := resolvesIn_false hoid2 hh
        refine ⟨⟨404, "Hospital not found"⟩, ?_, Or.inl rfl⟩
        simp only [create_request, hoid, hfd, hoid2, hfh]

def c3payload : RequestDoc :=
  { hospital_id := genId 0, donor_id := "x", blood_group := "O+", units := 1 }

/-- C3 counterexample: a valid request payload whose `donor_id` is the
unparseable string "x" references no existing donor, yet `create_request`
fails with 400 "Invalid object id" — not with Not-Found 404 as claimed. -/
theorem create_request_malformed_id_cex :
    RequestDoc.valid c3payload = true ∧
    resolvesIn DB.empty.donors c3payload.donor_id = false ∧
    create_request DB.empty c3payload =
      (DB.empty, .error ⟨400, "Invalid object id"⟩) := by
  decide

def c3wpayload : RequestDoc :=
  { hospital_id := genId 0, donor_id := genId 1, blood_group := "O+", units := 1 }

theorem create_request_unresolved_refs_fail_witness :
    RequestDoc.valid c3wpayload = true ∧
    resolvesIn DB.empty.donors c3wpayload.donor_id = false ∧
    ∃ err : HErr, create_request DB.empty c3wpayload = (DB.empty, .error err) ∧
      (err.code = 404 ∨ err = ⟨400, "Invalid object id"⟩) :=
  ⟨by decide, by decide,
   create_request_unresolved_refs_fail DB.empty c3wpayload (by decide)
     (Or.inl (by decide))⟩

/-- C2 (amended): a status-update operation never moves any stored request
back to "pending": every request document in the post state either already
appears unchanged in the pre state, or carries the operation's new status,
which the guard restricts to "approved" or "declined".  (The original claim
that "approved"/"declined" are terminal fails: the handler does not inspect
the current status, so a second update can still flip a request between
"approved" and "declined".) -/
theorem no_transition_to_pending (db : DB) (request_id st : String) (now : Nat)
    (e : String × RequestDoc)
    (h : e ∈ (update_request_status db request_id st now).1.requests) :
    e ∈ db.requests ∨ (e.2.status = st ∧ (st = "approved" ∨ st = "declined")) := by
  by_cases hb : (["approved", "declined"].contains st) = true
  case neg =>
    have hguard : (["approved", "declined"].contains st) = false := by
      cases hc : (["approved", "declined"].contains st)
      · rfl
      · exact absurd hc hb
    left
    unfold update_request_status at h
    rw [hguard] at h
    simpa using h
  case pos =>
    have hguard := hb
    have hst : st = "approved" ∨ st = "declined" := by simpa using hguard
    have hshape : (update_request_status db request_id st now).1.requests = db.requests ∨
        ∃ rid l2, updateFirst db.requests rid st now = some l2 ∧
          (update_request_status db request_id st now).1.requests = l2 := by
      unfold update_request_status
      rw [hguard]
      simp only [Bool.not_true, Bool.false_eq_true, if_false]
      split
      · exact Or.inl rfl
      · rename_i rid hoid
        split
        · exact Or.inl rfl
        · rename_i l2 hupd
          refine Or.inr ⟨rid, l2, hupd, ?_⟩
          dsimp only
          split
          · rfl
          · split
            · rfl
            · rfl
    rcases hshape with heq | ⟨rid, l2, hupd, heq⟩
    · rw [heq] at h
      exact Or.inl h
    · rw [heq] at h
      rcases updateFirst_entries hupd e h with h1 | h1
      · exact Or.inl h1
      · exact Or.inr ⟨h1, hst⟩

theorem no_transition_to_pending_witness :
    (c5rid, { c5req with status := "approved", updated_at := some 0 }) ∈
        (update_request_status c5db c5rid "approved" 0).1.requests ∧
    ((c5rid, { c5req with status := "approved", updated_at := some 0 }) ∈ c5db.requests ∨
      (({ c5req with status := "approved", updated_at := some 0 } : RequestDoc).status
          = "approved" ∧
        (("approved" : String) = "approved" ∨ ("approved" : String) = "declined"))) :=
  ⟨by decide,
   no_transition_to_pending c5db c5rid "approved" 0
     (c5rid, { c5req with status := "approved", updated_at := some 0 }) (by decide)⟩

/-! ### C2 counterexample: a reachable store in which an approved request is
subsequently declined through the same endpoint. -/

def cexHospital : Hospital := { name := "H", email := "h@x.com", phone := "2" }

def cexDonor : Donor :=
  { name := "B", email := "b@x.com", phone := "3", age := 25, blood_group := "A+",
    health_ok := true }

def cexDb1 : DB := (create_hospital DB.empty cexHospital).1

def cexDb2 : DB := (register_donor cexDb1 cexDonor).1

def cexReqPayload : RequestDoc :=
  { hospital_id := genId 0, donor_id := genId 1, blood_group := "A+", units := 1 }

def cexDb3 : DB := (create_request cexDb2 cexReqPayload).1

def cexRid : String := genId 3

def cexDb4 : DB := (update_request_status cexDb3 cexRid "approved" 0).1

/-- C2 counterexample: starting from the empty store and going only through
the API's own operations (create hospital, register donor, create request,
approve), the approved request is then successfully updated to "declined" —
"approved" is not a terminal status. -/
theorem approved_request_redeclined_cex :
    (create_request cexDb2 cexReqPayload).2 = .ok cexRid ∧
    (findDoc cexDb4.requests cexRid).map RequestDoc.status = some "approved" ∧
    (update_request_status cexDb4 cexRid "declined" 1).2 = .ok "declined" ∧
    (findDoc (update_request_status cexDb4 cexRid "declined" 1).1.requests cexRid).map
        RequestDoc.status = some "declined" := by
  decide

end BloodAPI
